import Mathlib

/-!
Verification of the mcp-template repository: a shallow embedding of the
request-dispatch runtime described by the specification (Transport,
Schema Validator, Registry, Dispatcher) together with the handlers that
the repository registers in src/index.ts (the add-numbers tool, the
meeting-agenda-generator tool, the story-idea-generator prompt, and the
sample-text resource).

The repository itself delegates the dispatch core to an external SDK
library whose code is not part of the repository sources; following the
specification, those parts are modelled from the spec text and are marked
as such in their doc comments.  The handlers, the registration order and
the startup function are embedded from src/index.ts.

JavaScript numbers are modelled as integers (exact arithmetic); strings
are Lean strings.
-/

namespace MCPTemplate

/-- Modelled from the spec: the runtime types a declared parameter schema can
mention (the repository only declares number and string parameters). -/
inductive JsType where
  | num
  | str
  | bool
  | null
deriving DecidableEq, Repr, BEq

/-- Modelled from the spec: an untyped wire value carried in a request
parameter payload.  Numbers are modelled as integers. -/
inductive JsValue where
  | num (n : Int)
  | str (s : String)
  | bool (b : Bool)
  | null
deriving DecidableEq, Repr, BEq

/-- The runtime type of a wire value. -/
def JsValue.typeOf : JsValue → JsType
  | .num _ => .num
  | .str _ => .str
  | .bool _ => .bool
  | .null => .null

/-- Modelled from the spec: one declared field of a parameter schema,
holding a type, a required flag and a description. -/
structure SchemaField where
  name : String
  ty : JsType
  required : Bool
  descr : String
deriving DecidableEq, Repr

/-- Modelled from the spec: a parameter schema is an ordered mapping from
parameter name to field declaration. -/
abbrev Schema := List SchemaField

/-- Modelled from the spec: an untyped parameter payload, an ordered list of
(field name, wire value) pairs. -/
abbrev Params := List (String × JsValue)

/-- Look a field up in a parameter payload by name. -/
def lookupParam (ps : Params) (k : String) : Option JsValue :=
  (ps.find? (fun p => p.fst == k)).map Prod.snd

/-- Modelled from the spec: one field-level validation violation, carrying
the field name, the expected type and a reason. -/
structure Violation where
  field : String
  expected : JsType
  reason : String
deriving DecidableEq, Repr

/-- Modelled from the spec: check one declared schema field against the
input payload.  A required field absent from the input records a violation;
a present field whose runtime type disagrees with the declared type records
a violation; otherwise the field passes. -/
def checkField (input : Params) (f : SchemaField) : Option Violation :=
  match lookupParam input f.name with
  | none => if f.required then some ⟨f.name, f.ty, "missing required field"⟩ else none
  | some v => if v.typeOf == f.ty then none else some ⟨f.name, f.ty, "type mismatch"⟩

/-- Modelled from the spec: the full violation list for a payload, collected
by iterating the declared fields of the schema in their fixed order.  Fields
not declared in the schema are ignored. -/
def fieldViolations (schema : Schema) (input : Params) : List Violation :=
  schema.filterMap (checkField input)

/-- Modelled from the spec: `validate` returns the input object unchanged if
zero violations, otherwise fails with the full violation list. -/
def validate (schema : Schema) (input : Params) : Except (List Violation) Params :=
  match fieldViolations schema input with
  | [] => .ok input
  | vs => .error vs

/-- A typed content block of a response, as in the handler results of
src/index.ts: a type tag and a text body. -/
structure ContentBlock where
  type : String
  text : String
deriving DecidableEq, Repr

/-- The result a handler returns on its success path: content blocks plus
an error flag (a handler may also report an error by setting the flag). -/
structure HandlerResult where
  content : List ContentBlock
  isError : Bool
deriving DecidableEq, Repr

/-- Modelled from the spec: an operation descriptor holds a unique name, a
human-readable description, a parameter schema and a handler.  The handler
receives validated parameters and either returns a result or raises, which
the embedding renders as `Except`. -/
structure Descriptor where
  name : String
  description : String
  schema : Schema
  handler : Params → Except String HandlerResult

/-- Modelled from the spec: the Registry is a mapping from operation name to
descriptor, populated at startup and immutable thereafter. -/
abbrev Registry := List Descriptor

/-- Modelled from the spec: registry errors — duplicate registration at
startup, unknown operation at lookup. -/
inductive RegError where
  | duplicateOperation (name : String)
  | unknownOperation (name : String)
deriving DecidableEq, Repr

/-- Modelled from the spec: `register` fails with `DuplicateOperationError`
if the name is already present, otherwise inserts the descriptor. -/
def register (reg : Registry) (d : Descriptor) : Except RegError Registry :=
  if reg.any (fun x => x.name == d.name) then
    .error (.duplicateOperation d.name)
  else
    .ok (reg ++ [d])

/-- Modelled from the spec: register a list of descriptors in order during
the startup phase, failing fast on the first duplicate. -/
def registerAll (reg : Registry) (ds : List Descriptor) : Except RegError Registry :=
  ds.foldlM register reg

/-- Modelled from the spec: look a descriptor up by operation name. -/
def findDesc (reg : Registry) (name : String) : Option Descriptor :=
  reg.find? (fun d => d.name == name)

/-- The add-numbers tool body from src/index.ts: computes the sum and
returns one text content block reporting it. -/
def addNumbersHandler (a b : Int) : HandlerResult :=
  ⟨[⟨"text", "The sum of " ++ toString a ++ " and " ++ toString b ++
      " is " ++ toString (a + b)⟩], false⟩

/-- The add-numbers tool as a registered handler: destructures the validated
parameters a and b (both numbers per the schema) and runs the body. -/
def addNumbersOp (ps : Params) : Except String HandlerResult :=
  match lookupParam ps "a", lookupParam ps "b" with
  | some (.num a), some (.num b) => .ok (addNumbersHandler a b)
  | _, _ => .error "invalid parameters for add-numbers"

/-- The zod input schema of the add-numbers tool from src/index.ts: two
required numbers a and b. -/
def addNumbersSchema : Schema :=
  [⟨"a", .num, true, "First number to add"⟩,
   ⟨"b", .num, true, "Second number to add"⟩]

/-- The add-numbers operation descriptor from src/index.ts. -/
def addNumbersDescriptor : Descriptor :=
  ⟨"add-numbers",
   "For any addition operation to add two numbers together",
   addNumbersSchema,
   addNumbersOp⟩

/-- The meeting-agenda-generator tool body from src/index.ts: deterministic
string interpolation into a fixed template. -/
def meetingAgendaHandler (meetingTitle participants duration : String) : HandlerResult :=
  ⟨[⟨"text",
      "Create a structured agenda for a \"" ++ meetingTitle ++ "\" meeting with " ++
      participants ++ " that will last " ++ duration ++
      ".\n\nThe agenda should include:\n1. Meeting Objective (1-2 sentences)\n" ++
      "2. Discussion Topics (prioritized list with time allocations)\n" ++
      "3. Required Preparation for Participants\n4. Expected Outcomes/Deliverables\n" ++
      "5. Next Steps and Action Items Template\n\nFormat the agenda to be clear, " ++
      "concise, and actionable. Ensure the timing works within the " ++ duration ++
      " constraint."⟩], false⟩

/-- The meeting-agenda-generator tool as a registered handler. -/
def meetingAgendaOp (ps : Params) : Except String HandlerResult :=
  match lookupParam ps "meetingTitle", lookupParam ps "participants",
        lookupParam ps "duration" with
  | some (.str t), some (.str p), some (.str d) => .ok (meetingAgendaHandler t p d)
  | _, _, _ => .error "invalid parameters for meeting-agenda-generator"

/-- The zod input schema of the meeting-agenda-generator tool from
src/index.ts: three required strings. -/
def meetingAgendaSchema : Schema :=
  [⟨"meetingTitle", .str, true, "Title or purpose of the meeting"⟩,
   ⟨"participants", .str, true, "Who will attend the meeting (roles or names)"⟩,
   ⟨"duration", .str, true, "Expected duration of the meeting (e.g., 30 minutes, 1 hour)"⟩]

/-- The meeting-agenda-generator operation descriptor from src/index.ts. -/
def meetingAgendaDescriptor : Descriptor :=
  ⟨"meeting-agenda-generator",
   "Creates a prompt for generating a structured meeting agenda. User must provide meetingTitle, participants, and duration. If any are missing, ask the user to provide them.",
   meetingAgendaSchema,
   meetingAgendaOp⟩

/-- The story-idea-generator prompt body from src/index.ts: deterministic
string interpolation into a fixed template.  The single user message of the
prompt result is rendered as one text content block, following the
specification, which generalizes tools, prompts and resources to operations
whose responses are ordered typed content blocks. -/
def storyIdeaHandler (topics genre mood : String) : HandlerResult :=
  ⟨[⟨"text",
      "You are a creative writing assistant specializing in generating unique and " ++
      "engaging story ideas. Provide detailed story concepts with potential plot " ++
      "points, character ideas, and thematic elements.\n\nI need creative story " ++
      "ideas that incorporate the following elements:\n            \nTopics/Themes: " ++
      topics ++ "\nGenre: " ++ genre ++ "\nMood/Tone: " ++ mood ++
      "\n\nPlease generate 3 unique story ideas that blend these elements together. " ++
      "For each idea, include:\n1. A compelling title\n2. A brief premise (1-2 " ++
      "sentences)\n3. Main character concept\n4. Key plot points or story arc\n" ++
      "5. Potential themes or messages\n\nMake the ideas distinct from each other " ++
      "and tailored specifically to my requirements."⟩], false⟩

/-- The story-idea-generator prompt as a registered handler. -/
def storyIdeaOp (ps : Params) : Except String HandlerResult :=
  match lookupParam ps "topics", lookupParam ps "genre", lookupParam ps "mood" with
  | some (.str t), some (.str g), some (.str m) => .ok (storyIdeaHandler t g m)
  | _, _, _ => .error "invalid parameters for story-idea-generator"

/-- The input schema of the story-idea-generator prompt from src/index.ts:
three required strings. -/
def storyIdeaSchema : Schema :=
  [⟨"topics", .str, true, "Comma-separated list of topics or themes to incorporate into the story"⟩,
   ⟨"genre", .str, true, "Preferred genre for the story (fantasy, sci-fi, mystery, etc.)"⟩,
   ⟨"mood", .str, true, "Emotional tone of the story (dark, uplifting, humorous, etc.)"⟩]

/-- The story-idea-generator operation descriptor from src/index.ts. -/
def storyIdeaDescriptor : Descriptor :=
  ⟨"story-idea-generator",
   "Generate creative and engaging story ideas based on provided topics, genre, target audience, and mood",
   storyIdeaSchema,
   storyIdeaOp⟩

/-- Modelled from the spec: the content of src/resources/sample.ts is not
part of the repository sources; the spec describes it as fixed in-memory
text content, modelled here as a fixed string constant. -/
def sampleText : String :=
  "This is sample text content provided by the MCP template server."

/-- One entry of a resource result: a uri and a text body, as returned by
the sample-text resource handler in src/index.ts. -/
structure ResourceContent where
  uri : String
  text : String
deriving DecidableEq, Repr

/-- The result shape of the sample-text resource handler in src/index.ts:
a contents list plus the error flag set by its catch branch. -/
structure ResourceResult where
  contents : List ResourceContent
  isError : Bool
deriving DecidableEq, Repr

/-- The try block of the sample-text resource handler from src/index.ts: it
only constructs a literal contents object from the constant `sampleText`,
so it always succeeds. -/
def sampleResourceTry (uri : String) : Except String (List ResourceContent) :=
  .ok [⟨uri, sampleText⟩]

/-- The sample-text resource handler from src/index.ts: runs the try block
and, were it to fail, would return an error
contents list with `isError` set (the catch branch). -/
def sampleResource (uri : String) : ResourceResult :=
  match sampleResourceTry uri with
  | .ok cs => ⟨cs, false⟩
  | .error e => ⟨[⟨uri, "Error: Failed to load sample text content. " ++ e⟩], true⟩

/-- The sample-text resource as a registered operation descriptor: the
specification generalizes resources to operations in the Registry; its
handler takes no parameters and serves the fixed text at uri sample://text. -/
def sampleTextDescriptor : Descriptor :=
  ⟨"sample-text",
   "Provides access to the content of the sample.txt file",
   [],
   fun _ =>
     .ok ⟨((sampleResource "sample://text").contents.map
             (fun c => ⟨"text", c.text⟩)),
          (sampleResource "sample://text").isError⟩⟩

/-- The descriptors registered by src/index.ts, in registration order. -/
def serverDescriptors : List Descriptor :=
  [addNumbersDescriptor, meetingAgendaDescriptor, storyIdeaDescriptor,
   sampleTextDescriptor]

/-- The registry the server runs with after its startup registrations. -/
def serverRegistry : Registry := serverDescriptors

/-- Modelled from the spec: a request holds a caller-supplied correlation
id, an operation name and an untyped parameter payload. -/
structure Request where
  id : String
  op : String
  params : Params

/-- Modelled from the spec: a response correlates to a request via the same
id and holds ordered content blocks, an error flag, and the kind of the
error when one occurred. -/
structure Response where
  id : String
  content : List ContentBlock
  isError : Bool
  errorKind : Option String
deriving DecidableEq, Repr

/-- The outcome of dispatching one request: the single response sent back,
and the name of the handler that was invoked, if any was. -/
structure DispatchResult where
  response : Response
  invoked : Option String
deriving Repr

/-- Modelled from the spec: the Dispatcher receives a request, looks the
handler up in the Registry, validates parameters, invokes the handler, and
produces exactly one response correlated to the request id.  Lookup or
validation failure produces an error response without invoking any handler;
a handler that raises or reports an error still yields a correlated
response with the error flag set. -/
def dispatch (reg : Registry) (req : Request) : DispatchResult :=
  match findDesc reg req.op with
  | none =>
    ⟨⟨req.id, [⟨"text", "Unknown operation: " ++ req.op⟩], true,
      some "UnknownOperationError"⟩, none⟩
  | some d =>
    match validate d.schema req.params with
    | .error vs =>
      ⟨⟨req.id,
        [⟨"text", "Invalid parameters: " ++
            String.intercalate ", " (vs.map Violation.field)⟩], true,
        some "ValidationError"⟩, none⟩
    | .ok ps =>
      match d.handler ps with
      | .error msg =>
        ⟨⟨req.id, [⟨"text", msg⟩], true, some "HandlerError"⟩, some d.name⟩
      | .ok r =>
        ⟨⟨req.id, r.content, r.isError,
          if r.isError then some "HandlerError" else none⟩, some d.name⟩

/-- Modelled from the spec: serving a sequence of requests dispatches each
one against the read-only registry; there is no mutable state, so the
response list is the pointwise dispatch of the request list. -/
def serveSeq (reg : Registry) (reqs : List Request) : List Response :=
  reqs.map (fun r => (dispatch reg r).response)

/-- The outcome of process startup: either the server is left running, or
the process exited with a code; both carry the diagnostic log lines written
so far. -/
inductive StartupOutcome where
  | running (logs : List String)
  | exited (code : Nat) (logs : List String)
deriving DecidableEq, Repr

/-- The main function from src/index.ts, as a function of the outcome of
connecting the transport: logs the startup message, then either logs the
running message, or logs the failure diagnostic and exits with code 1. -/
def mainModel (connect : Except String Unit) : StartupOutcome :=
  match connect with
  | .ok _ =>
    .running ["MCP Template Server starting...", "MCP Template Server running..."]
  | .error e =>
    .exited 1 ["MCP Template Server starting...",
               "Error starting MCP Template Server: " ++ e]

/-- Render a registry error for the startup diagnostic log. -/
def regErrMsg : RegError → String
  | .duplicateOperation n => "DuplicateOperationError: " ++ n
  | .unknownOperation n => "UnknownOperationError: " ++ n

/-- Process startup as a whole: the top-level registrations of src/index.ts
run first, then main connects the transport.  Modelled from the spec for
the registration branch: a registration failure is fatal and terminates the
process with a logged cause and non-zero exit (in the source the
registrations run at module top level, where an uncaught error ends the
process with exit code 1). -/
def processStartup (regRes : Except RegError Registry)
    (connect : Except String Unit) : StartupOutcome :=
  match regRes with
  | .error e => .exited 1 ["Uncaught error during registration: " ++ regErrMsg e]
  | .ok _ => mainModel connect

/-- Whether a startup run failed: either the registration phase or the
transport connection raised. -/
def startupFails (regRes : Except RegError Registry)
    (connect : Except String Unit) : Bool :=
  match regRes, connect with
  | .error _, _ => true
  | .ok _, .error _ => true
  | .ok _, .ok _ => false

/-- A descriptor whose handler always raises, used to exercise the error
path of the Dispatcher on a concrete input. -/
def failDescriptor : Descriptor :=
  ⟨"fail-op", "always fails", [], fun _ => .error "boom"⟩

/-- The add-numbers request with correlation id i and operands a and b. -/
def addRequest (i : String) (a b : Int) : Request :=
  ⟨i, "add-numbers", [("a", .num a), ("b", .num b)]⟩

/-- The response the add-numbers operation produces for id i and operands
a and b. -/
def addResponseFor (i : String) (a b : Int) : Response :=
  ⟨i, [⟨"text", "The sum of " ++ toString a ++ " and " ++ toString b ++
        " is " ++ toString (a + b)⟩], false, none⟩

/-- Dispatching an add-numbers request against the server registry invokes
the add-numbers handler and yields its response. -/
theorem dispatch_add_numbers (i : String) (a b : Int) :
    dispatch serverRegistry (addRequest i a b) =
      ⟨addResponseFor i a b, some "add-numbers"⟩ := rfl

/-- Claim C1: for every pair of numbers a and b, the add-numbers operation,
invoked through the Dispatcher with validated parameters, returns a success
result whose text is "The sum of a and b is s" with s the arithmetic sum;
in particular the request with id 1 and operands 2 and 3 yields the
response with id 1 and text "The sum of 2 and 3 is 5". -/
theorem add_numbers_sum_correct (i : String) (a b : Int) :
    (dispatch serverRegistry ⟨i, "add-numbers",
        [("a", .num a), ("b", .num b)]⟩).response =
      ⟨i, [⟨"text", "The sum of " ++ toString a ++ " and " ++ toString b ++
            " is " ++ toString (a + b)⟩], false, none⟩ ∧
    (dispatch serverRegistry ⟨"1", "add-numbers",
        [("a", .num 2), ("b", .num 3)]⟩).response =
      ⟨"1", [⟨"text", "The sum of 2 and 3 is 5"⟩], false, none⟩ :=
  ⟨rfl, by decide⟩

/-- Claim C2: validation records every violated schema field in the
violation list, not only the first: any field whose check fails is a member
of the full violation list the validator reports; with zero violations the
input object is returned unchanged, and otherwise validation fails with
exactly that full list. -/
theorem validate_reports_all_violations (schema : Schema) (input : Params) :
    (∀ f, f ∈ schema → ∀ v, checkField input f = some v →
      v ∈ fieldViolations schema input) ∧
    (fieldViolations schema input = [] → validate schema input = .ok input) ∧
    (fieldViolations schema input ≠ [] →
      validate schema input = .error (fieldViolations schema input)) := by
  refine ⟨?_, ?_, ?_⟩
  · intro f hf v hv
    exact List.mem_filterMap.mpr ⟨f, hf, hv⟩
  · intro h
    simp [validate, h]
  · intro h
    unfold validate
    cases hvs : fieldViolations schema input with
    | nil => exact absurd hvs h
    | cons x xs => rfl

/-- Witness for claim C2: with both a and b missing from the add-numbers
parameters, the violation list contains both fields and validation fails
with the full list. -/
theorem validate_reports_all_violations_witness :
    (⟨"a", .num, "missing required field"⟩ : Violation) ∈
      fieldViolations addNumbersSchema [] ∧
    (⟨"b", .num, "missing required field"⟩ : Violation) ∈
      fieldViolations addNumbersSchema [] ∧
    validate addNumbersSchema [] = .error (fieldViolations addNumbersSchema []) :=
  ⟨(validate_reports_all_violations addNumbersSchema []).1
      ⟨"a", .num, true, "First number to add"⟩ (by decide) _ (by decide),
   (validate_reports_all_violations addNumbersSchema []).1
      ⟨"b", .num, true, "Second number to add"⟩ (by decide) _ (by decide),
   (validate_reports_all_violations addNumbersSchema []).2.2 (by decide)⟩

/-- Claim C3: for every request whose operation name is not registered, the
Dispatcher produces a response with the error flag set, carrying the
UnknownOperationError kind, and no handler is invoked. -/
theorem unknown_operation_rejected (reg : Registry) (req : Request)
    (h : req.op ∉ reg.map Descriptor.name) :
    (dispatch reg req).response.isError = true ∧
    (dispatch reg req).response.errorKind = some "UnknownOperationError" ∧
    (dispatch reg req).invoked = none := by
  have hfind : findDesc reg req.op = none := by
    apply List.find?_eq_none.mpr
    intro d hd hbeq
    exact h (List.mem_map.mpr ⟨d, hd, eq_of_beq hbeq⟩)
  simp [dispatch, hfind]

/-- Witness for claim C3: the request with id 3 for the unregistered
operation nonexistent-op is answered with an error response and no handler
runs. -/
theorem unknown_operation_rejected_witness :
    (dispatch serverRegistry ⟨"3", "nonexistent-op", []⟩).response.isError = true ∧
    (dispatch serverRegistry ⟨"3", "nonexistent-op", []⟩).response.errorKind =
      some "UnknownOperationError" ∧
    (dispatch serverRegistry ⟨"3", "nonexistent-op", []⟩).invoked = none :=
  unknown_operation_rejected serverRegistry ⟨"3", "nonexistent-op", []⟩ (by decide)

/-- Claim C4: the Dispatcher always produces exactly one response whose
correlation id matches the request id, on every path; and when a request
reaches a handler that raises an error, or returns a result flagged as an
error, the response still goes out with the error flag set (per-request
errors never drop the reply, and the dispatch function is total, so none
crashes the process). -/
theorem handler_errors_still_replied (reg : Registry) (req : Request) :
    (dispatch reg req).response.id = req.id ∧
    (∀ d, findDesc reg req.op = some d →
      ∀ ps, validate d.schema req.params = .ok ps →
        (∀ msg, d.handler ps = .error msg →
          (dispatch reg req).response.isError = true ∧
          (dispatch reg req).response.errorKind = some "HandlerError") ∧
        (∀ r, d.handler ps = .ok r → r.isError = true →
          (dispatch reg req).response.isError = true)) := by
  constructor
  · cases hf : findDesc reg req.op with
    | none => simp [dispatch, hf]
    | some d =>
      cases hv : validate d.schema req.params with
      | error vs => simp [dispatch, hf, hv]
      | ok ps =>
        cases hh : d.handler ps with
        | error msg => simp [dispatch, hf, hv, hh]
        | ok r => simp [dispatch, hf, hv, hh]
  · intro d hd ps hv
    constructor
    · intro msg hmsg
      simp [dispatch, hd, hv, hmsg]
    · intro r hr hre
      simp [dispatch, hd, hv, hr, hre]

/-- Witness for claim C4: a handler that raises still gets a reply
correlated to the original id 9, with the error flag set. -/
theorem handler_errors_still_replied_witness :
    (dispatch [failDescriptor] ⟨"9", "fail-op", []⟩).response.id = "9" ∧
    (dispatch [failDescriptor] ⟨"9", "fail-op", []⟩).response.isError = true :=
  ⟨(handler_errors_still_replied [failDescriptor] ⟨"9", "fail-op", []⟩).1,
   (((handler_errors_still_replied [failDescriptor] ⟨"9", "fail-op", []⟩).2
      failDescriptor rfl [] rfl).1 "boom" rfl).1⟩

/-- Claim C5: registering a name already present in the registry fails with
DuplicateOperationError and otherwise inserts the descriptor; the startup
registrations of the server all succeed, and consequently no two registered
descriptors share a name. -/
theorem register_unique_names :
    (∀ (reg : Registry) (d : Descriptor),
      (d.name ∈ reg.map Descriptor.name →
        register reg d = .error (.duplicateOperation d.name)) ∧
      (d.name ∉ reg.map Descriptor.name →
        register reg d = .ok (reg ++ [d]))) ∧
    registerAll [] serverDescriptors = .ok serverRegistry ∧
    (serverRegistry.map Descriptor.name).Nodup := by
  refine ⟨?_, rfl, by decide⟩
  intro reg d
  constructor
  · intro h
    have hany : reg.any (fun x => x.name == d.name) = true := by
      rcases List.mem_map.mp h with ⟨x, hx, hxn⟩
      exact List.any_eq_true.mpr ⟨x, hx, by simp [hxn]⟩
    simp [register, hany]
  · intro h
    have hany : reg.any (fun x => x.name == d.name) = false := by
      rw [List.any_eq_false]
      intro x hx hbeq
      exact h (List.mem_map.mpr ⟨x, hx, eq_of_beq hbeq⟩)
    simp [register, hany]

/-- Witness for claim C5: registering add-numbers a second time fails with
DuplicateOperationError, while registering it into the empty registry
succeeds. -/
theorem register_unique_names_witness :
    register [addNumbersDescriptor] addNumbersDescriptor =
      .error (.duplicateOperation addNumbersDescriptor.name) ∧
    register [] addNumbersDescriptor = .ok [addNumbersDescriptor] :=
  ⟨(register_unique_names.1 [addNumbersDescriptor] addNumbersDescriptor).1 (by decide),
   (register_unique_names.1 [] addNumbersDescriptor).2 (by decide)⟩

/-- Claim C6: whenever a startup step fails — the registration phase or the
transport connection — the process exits with code 1 (non-zero) after
logging a final diagnostic message. -/
theorem startup_failure_exits_nonzero (regRes : Except RegError Registry)
    (connect : Except String Unit) (h : startupFails regRes connect = true) :
    ∃ logs, processStartup regRes connect = .exited 1 logs ∧
      logs.getLast? ≠ none := by
  cases regRes with
  | error e => exact ⟨_, rfl, by simp⟩
  | ok reg =>
    cases connect with
    | error e => exact ⟨_, rfl, by simp [mainModel]⟩
    | ok u => simp [startupFails] at h

/-- Witness for claim C6: both a failing transport connection and a
duplicate registration terminate startup with exit code 1 and a final
diagnostic. -/
theorem startup_failure_exits_nonzero_witness :
    (∃ logs, processStartup (.ok serverRegistry) (.error "transport failed") =
      .exited 1 logs ∧ logs.getLast? ≠ none) ∧
    (∃ logs, processStartup (.error (.duplicateOperation "add-numbers")) (.ok ()) =
      .exited 1 logs ∧ logs.getLast? ≠ none) :=
  ⟨startup_failure_exits_nonzero (.ok serverRegistry) (.error "transport failed")
      (by decide),
   startup_failure_exits_nonzero (.error (.duplicateOperation "add-numbers")) (.ok ())
      (by decide)⟩

/-- Claim C7: the add-numbers handler is a pure function of its validated
parameters: serving the identical add-numbers request any number of times
produces the identical response every time. -/
theorem add_numbers_idempotent (i : String) (a b : Int) (n : Nat) :
    serveSeq serverRegistry (List.replicate n (addRequest i a b)) =
      List.replicate n (addResponseFor i a b) := by
  simp [serveSeq, List.map_replicate, dispatch_add_numbers]

/-- Claim C8: the sample-text resource handler returns the same fixed text
— the sampleText constant — for every uri and on every call; any two calls
return identical text content. -/
theorem sample_resource_constant (u1 u2 : String) :
    (sampleResource u1).contents.map ResourceContent.text = [sampleText] ∧
    (sampleResource u1).contents.map ResourceContent.text =
      (sampleResource u2).contents.map ResourceContent.text :=
  ⟨rfl, rfl⟩

/-- Claim C9: the catch branch of the sample-text resource handler is
unreachable: its try block only constructs a literal contents object from
the sampleText constant and always succeeds, so the handler never returns a
response with the error flag set. -/
theorem sample_resource_never_errors (u : String) :
    sampleResourceTry u = .ok [⟨u, sampleText⟩] ∧
    (sampleResource u).isError = false :=
  ⟨rfl, rfl⟩

/-- Claim C10: for every pair of numbers a and b, the add-numbers handler
result consists of exactly one content block, of type text, and carries no
error flag. -/
theorem add_numbers_single_text_block (a b : Int) :
    (addNumbersHandler a b).content.map ContentBlock.type = ["text"] ∧
    (addNumbersHandler a b).content.length = 1 ∧
    (addNumbersHandler a b).isError = false :=
  ⟨rfl, rfl, rfl⟩

end MCPTemplate
